import Mathlib

/-!
Shallow embedding of `backend/app/services/anomaly_detector.py`
(`RuleBasedAnomalyDetector`): the rule cache, the decision engine
(`check_log`), sliding-window frequency tracking, cooldown tracking, the
rate limiter and the batch detection loop (`detect`).

Modelling conventions:
* Times (`datetime.now()`, log timestamps) are integers counting seconds;
  `timedelta(minutes=m)` becomes `m * 60`.  The ClickHouse `logs.timestamp`
  column is `DateTime` (second precision), so the watermark formatting
  `strftime('%Y-%m-%d %H:%M:%S')` is the identity under this model.
* Python dicts are association lists whose keys are unique (dict reads are
  first-match lookups, dict writes replace in place or append);
  `defaultdict(list)` reads of a missing key give `[]`.
* Python float scores are modelled as rationals: the detector only stores
  and copies scores, it never performs float arithmetic on them.
* `datetime.now()` inside one `check_log` call or one `detect` pass is
  modelled as a single time parameter `now` for the whole call.
* The TTL-based cache refresh at the top of `check_log`
  (`_should_reload_rules` / `_load_rules`) performs I/O against the rule
  store; it is modelled by taking the rule snapshot as part of the state,
  and `load_rules` is modelled separately as a function of the fetch
  result.  Likewise, the log-store query inside `detect` is modelled by a
  `store` parameter together with the pure filter `queryLogs`, and the
  fallible anomaly-store insert by a `persistOk` oracle.
* `Char.toUpper` / `Char.toLower` agree with Python `str.upper` /
  `str.lower` on the ASCII rule values and levels used by the detector.
-/

/-- Python `needle` starts `hay` test on code-point lists (helper for the
substring test below). -/
def listStarts : List Char → List Char → Bool
  | _, [] => true
  | [], _ :: _ => false
  | h :: hs, n :: ns => h == n && listStarts hs ns

/-- Contiguous-sublist test on code-point lists. -/
def listHas : List Char → List Char → Bool
  | [], n => n.isEmpty
  | h :: t, n => listStarts (h :: t) n || listHas t n

/-- Python substring test `needle in hay` on strings (contiguous match over
code points). -/
def strHas (hay needle : String) : Bool :=
  listHas hay.data needle.data

/-- Python `str.upper` (equals `String.toUpper`, written over the code-point
list). -/
def strUpper (s : String) : String :=
  ⟨s.data.map Char.toUpper⟩

/-- Python `str.lower` (equals `String.toLower`, written over the code-point
list). -/
def strLower (s : String) : String :=
  ⟨s.data.map Char.toLower⟩

/-- Python slice `s[:n]` (equals `String.take`, written over the code-point
list). -/
def strTake (s : String) (n : Nat) : String :=
  ⟨s.data.take n⟩

/-- Row of the `anomaly_rules` cache, mirroring the `AnomalyRule` dataclass
with its field defaults. -/
structure AnomalyRule where
  id : String
  rule_type : String
  rule_value : String
  severity : String
  score : Rat
  description : String
  is_active : Bool
  time_window_minutes : Int := 5
  threshold_count : Int := 1
  cooldown_minutes : Int := 30
deriving DecidableEq, Repr

/-- Result of a single detection, mirroring the `AnomalyResult` dataclass
with its field defaults. -/
structure AnomalyResult where
  is_anomaly : Bool
  rule_type : String
  rule_value : String
  severity : String
  score : Rat
  description : String
  occurrence_count : Nat := 0
  time_window : Int := 0
deriving DecidableEq, Repr

/-- Global settings, mirroring the `GlobalSettings` dataclass with its
defaults. -/
structure GlobalSettings where
  detection_window_minutes : Int := 5
  baseline_hours : Int := 24
  default_cooldown_minutes : Int := 30
  max_anomalies_per_minute : Int := 10
deriving DecidableEq, Repr

/-- Key of the frequency tracker: `(rule_value, template_id)`. -/
abbrev FreqKey := String × Int

/-- Key of the cooldown tracker: `(rule_type, rule_value, template_id)`. -/
abbrev CooldownKey := String × String × Int

/-- Mutable state of `RuleBasedAnomalyDetector`: the four rule indices, the
settings, and the three trackers plus the watermark. -/
structure DetectorState where
  level_rules : List (String × AnomalyRule)
  keyword_rules : List AnomalyRule
  frequency_rules : List AnomalyRule
  safe_templates : List Int
  rules_loaded_at : Option Int
  settings : GlobalSettings
  cooldown_tracker : List (CooldownKey × Int)
  frequency_tracker : List (FreqKey × List Int)
  anomaly_count_tracker : List Int
  last_processed_timestamp : Option Int
deriving DecidableEq, Repr

/-- Dict read `m.get(k)` / `k in m` on the level-rule index. -/
def lookupRule (m : List (String × AnomalyRule)) (k : String) : Option AnomalyRule :=
  (m.find? (fun p => decide (p.1 = k))).map (fun p => p.2)

/-- Dict write `m[k] = v` (replace in place, else append). -/
def dictInsert : List (String × AnomalyRule) → String → AnomalyRule →
    List (String × AnomalyRule)
  | [], k, v => [(k, v)]
  | p :: rest, k, v => if p.1 = k then (k, v) :: rest else p :: dictInsert rest k v

/-- `defaultdict(list)` read of the frequency tracker. -/
def ftGet (t : List (FreqKey × List Int)) (k : FreqKey) : List Int :=
  match t.find? (fun p => decide (p.1 = k)) with
  | some p => p.2
  | none => []

/-- Dict write on the frequency tracker. -/
def ftSet : List (FreqKey × List Int) → FreqKey → List Int →
    List (FreqKey × List Int)
  | [], k, v => [(k, v)]
  | p :: rest, k, v => if p.1 = k then (k, v) :: rest else p :: ftSet rest k v

/-- Dict read of the cooldown tracker. -/
def cdGet (t : List (CooldownKey × Int)) (k : CooldownKey) : Option Int :=
  (t.find? (fun p => decide (p.1 = k))).map (fun p => p.2)

/-- Dict write on the cooldown tracker. -/
def cdSet : List (CooldownKey × Int) → CooldownKey → Int →
    List (CooldownKey × Int)
  | [], k, v => [(k, v)]
  | p :: rest, k, v => if p.1 = k then (k, v) :: rest else p :: cdSet rest k v

/-- `_check_frequency`: if the rule value is a case-insensitive substring of
the message, append `now` to the dimension's window, prune entries with
`ts > cutoff` where `cutoff = now - time_window_minutes`, and report whether
the surviving count reaches `threshold_count`.  Returns the `(triggered,
count)` pair together with the updated tracker. -/
def check_frequency (rule : AnomalyRule) (template_id : Int) (message : String)
    (now : Int) (tracker : List (FreqKey × List Int)) :
    (Bool × Nat) × List (FreqKey × List Int) :=
  if strHas (strLower message) (strLower rule.rule_value) then
    let tracker_key : FreqKey := (rule.rule_value, template_id)
    let cutoff := now - rule.time_window_minutes * 60
    let pruned := (ftGet tracker tracker_key ++ [now]).filter
      (fun ts => decide (cutoff < ts))
    let tracker2 := ftSet tracker tracker_key pruned
    if rule.threshold_count ≤ (pruned.length : Int) then
      ((true, pruned.length), tracker2)
    else
      ((false, pruned.length), tracker2)
  else
    ((false, 0), tracker)

/-- The `for rule in self._frequency_rules` loop of `check_log`: rules are
tried in list order, each matching rule updates the tracker, and the first
rule to trigger wins. -/
def freqScan (rules : List AnomalyRule) (template_id : Int) (message : String)
    (now : Int) (tracker : List (FreqKey × List Int)) :
    Option (AnomalyRule × Nat) × List (FreqKey × List Int) :=
  match rules with
  | [] => (none, tracker)
  | r :: rest =>
    let step := check_frequency r template_id message now tracker
    if step.1.1 then (some (r, step.1.2), step.2)
    else freqScan rest template_id message now step.2

/-- `check_log`: evaluate one record against the cached snapshot with fixed
precedence level > keyword > frequency > safe_template > unknown.  The
TTL-based rule refresh preceding these checks is I/O and is modelled by the
snapshot in `s`.  Returns the result and the updated state (only the
frequency tracker can change). -/
def check_log (s : DetectorState) (now : Int) (level : String)
    (template_id : Int) (message : String) : AnomalyResult × DetectorState :=
  let level_upper := strUpper level
  match lookupRule s.level_rules level_upper with
  | some rule =>
    ({ is_anomaly := true, rule_type := "level", rule_value := level_upper,
       severity := rule.severity, score := rule.score,
       description := rule.description }, s)
  | none =>
    let message_lower := strLower message
    match s.keyword_rules.find? (fun rule => strHas message_lower (strLower rule.rule_value)) with
    | some rule =>
      ({ is_anomaly := true, rule_type := "keyword", rule_value := rule.rule_value,
         severity := rule.severity, score := rule.score,
         description := rule.description }, s)
    | none =>
      match freqScan s.frequency_rules template_id message now s.frequency_tracker with
      | (some (rule, count), tracker2) =>
        ({ is_anomaly := true, rule_type := "frequency", rule_value := rule.rule_value,
           severity := rule.severity, score := rule.score,
           description := rule.description ++ " (" ++ toString count ++ "회/" ++
             toString rule.time_window_minutes ++ "분)",
           occurrence_count := count, time_window := rule.time_window_minutes },
         { s with frequency_tracker := tracker2 })
      | (none, tracker2) =>
        if s.safe_templates.contains template_id then
          ({ is_anomaly := false, rule_type := "safe_template",
             rule_value := toString template_id, severity := "info", score := 0,
             description := "정상 템플릿" },
           { s with frequency_tracker := tracker2 })
        else
          ({ is_anomaly := false, rule_type := "unknown",
             rule_value := toString template_id, severity := "info", score := 1/10,
             description := "미분류 템플릿" },
           { s with frequency_tracker := tracker2 })

/-- Python falsy-or `rule.cooldown_minutes or self._settings.default_cooldown_minutes`
used by `_is_on_cooldown`. -/
def effCooldown (s : DetectorState) (rule : AnomalyRule) : Int :=
  if rule.cooldown_minutes = 0 then s.settings.default_cooldown_minutes
  else rule.cooldown_minutes

/-- `_is_on_cooldown`: true when the dimension has a recorded trigger whose
age is below the rule's cooldown (or the global default when unset). -/
def is_on_cooldown (s : DetectorState) (rule : AnomalyRule) (template_id : Int)
    (now : Int) : Bool :=
  match cdGet s.cooldown_tracker (rule.rule_type, rule.rule_value, template_id) with
  | none => false
  | some last_trigger =>
    decide (now - last_trigger < effCooldown s rule * 60)

/-- `_update_cooldown`: record `now` as the last trigger time of the
dimension. -/
def update_cooldown (s : DetectorState) (rule : AnomalyRule) (template_id : Int)
    (now : Int) : DetectorState :=
  { s with cooldown_tracker :=
      cdSet s.cooldown_tracker (rule.rule_type, rule.rule_value, template_id) now }

/-- Python `max(xs, default=d)`: `d` on the empty list, else the maximum
element (which may be below `d`). -/
def pyMax (xs : List Int) (d : Int) : Int :=
  match xs with
  | [] => d
  | x :: rest => rest.foldl max x

/-- The `max_cooldown` computed by `_cleanup_expired_data`: the maximum of
the global default and the cooldowns of the keyword and frequency rules
(level rules are not consulted). -/
def maxCooldownOf (s : DetectorState) : Int :=
  max s.settings.default_cooldown_minutes
    (max (pyMax (s.keyword_rules.map (fun r => r.cooldown_minutes)) 30)
         (pyMax (s.frequency_rules.map (fun r => r.cooldown_minutes)) 30))

/-- `_cleanup_expired_data`: delete cooldown entries with
`v < now - max_cooldown * 2`, prune every frequency window to timestamps
within the last 30 minutes deleting emptied keys, and prune the per-minute
anomaly counter to the last 60 seconds. -/
def cleanup_expired_data (s : DetectorState) (now : Int) : DetectorState :=
  let cooldown_cutoff := now - maxCooldownOf s * 2 * 60
  let cooldown2 := s.cooldown_tracker.filter (fun p => decide (cooldown_cutoff ≤ p.2))
  let freq2 :=
    (s.frequency_tracker.map
      (fun p => (p.1, p.2.filter (fun ts => decide (now - 30 * 60 < ts))))).filter
      (fun p => !p.2.isEmpty)
  let anom2 := s.anomaly_count_tracker.filter (fun ts => decide (now - 60 < ts))
  { s with cooldown_tracker := cooldown2, frequency_tracker := freq2,
           anomaly_count_tracker := anom2 }

/-- `_check_rate_limit`: true (deny) when the per-minute anomaly counter has
reached `max_anomalies_per_minute` entries. -/
def check_rate_limit (s : DetectorState) : Bool :=
  decide (s.settings.max_anomalies_per_minute ≤ (s.anomaly_count_tracker.length : Int))

/-- `_find_rule`: resolve a result's `(rule_type, rule_value)` back to the
rule object used for cooldown bookkeeping. -/
def find_rule (s : DetectorState) (rule_type : String) (rule_value : String) :
    Option AnomalyRule :=
  if rule_type = "level" then lookupRule s.level_rules (strUpper rule_value)
  else if rule_type = "keyword" then
    s.keyword_rules.find? (fun r => decide (r.rule_value = rule_value))
  else if rule_type = "frequency" then
    s.frequency_rules.find? (fun r => decide (r.rule_value = rule_value))
  else none

/-- Row of the `logs` table as returned by the detection query:
`(timestamp, log_level, service, template_id, raw_message)`. -/
structure LogRecord where
  timestamp : Int
  log_level : String
  service : String
  template_id : Int
  raw_message : String
deriving DecidableEq, Repr

/-- Structured event handed to `_trigger_agent` (the timestamp is kept
numeric; the source serialises it with `isoformat`). -/
structure TriggerEvent where
  template_id : Int
  timestamp : Int
  anomaly_score : Rat
  severity : String
  rule_type : String
  rule_value : String
  details : String
  message : String
  service : String
  occurrence_count : Nat
  time_window : Int
deriving DecidableEq, Repr

/-- Row inserted into the `anomalies` table:
`(timestamp, template_id, anomaly_score, is_anomaly, details)`. -/
structure AnomalyRow where
  timestamp : Int
  template_id : Int
  anomaly_score : Rat
  is_anomaly : Int
  details : String
deriving DecidableEq, Repr

/-- Accumulated outcome of one `detect` pass: the detector state, the local
variables `latest_timestamp` and `anomaly_count`, the rows written to the
anomaly store, the dispatched agent-trigger events, the records evaluated,
and whether the pass was aborted by an exception. -/
structure DetectPass where
  state : DetectorState
  latest_timestamp : Option Int
  anomaly_count : Nat
  persisted : List AnomalyRow
  dispatches : List TriggerEvent
  evaluated : List LogRecord
  aborted : Bool
deriving DecidableEq, Repr

/-- Update of the loop-local `latest_timestamp` by one record
(`if latest_timestamp is None or timestamp > latest_timestamp`). -/
def latestStep (a : Option Int) (r : LogRecord) : Option Int :=
  match a with
  | none => some r.timestamp
  | some t => if t < r.timestamp then some r.timestamp else some t

/-- One iteration of the `for row in results` loop of `detect`: the record
advances `latest_timestamp`, is evaluated by `check_log`; an anomaly appends
to the per-minute counter, is persisted (a failed insert raises — the second
component turns `false` and the loop stops with the mutations made so far
kept), and, when the resolved rule is not on cooldown, marks the cooldown
and dispatches a trigger event. -/
def detectStep (now : Int) (persistOk : LogRecord → Bool) (acc : DetectPass)
    (r : LogRecord) : DetectPass × Bool :=
  let latest2 := latestStep acc.latest_timestamp r
  let step := check_log acc.state now r.log_level r.template_id r.raw_message
  let res := step.1
  if res.is_anomaly then
    let s2 := { step.2 with
      anomaly_count_tracker := (step.2).anomaly_count_tracker ++ [now] }
    let acc2 := { acc with
      state := s2
      latest_timestamp := latest2
      anomaly_count := acc.anomaly_count + 1
      evaluated := acc.evaluated ++ [r] }
    if persistOk r then
      let details := res.rule_type ++ ": " ++ res.rule_value ++ " - " ++ res.description
      let acc3 := { acc2 with persisted := acc2.persisted ++
        [{ timestamp := r.timestamp, template_id := r.template_id,
           anomaly_score := res.score, is_anomaly := 1, details := details }] }
      match find_rule s2 res.rule_type res.rule_value with
      | some rule =>
        if is_on_cooldown s2 rule r.template_id now then (acc3, true)
        else
          let s3 := update_cooldown s2 rule r.template_id now
          let ev : TriggerEvent := {
            template_id := r.template_id, timestamp := r.timestamp,
            anomaly_score := res.score, severity := res.severity,
            rule_type := res.rule_type, rule_value := res.rule_value,
            details := details, message := strTake r.raw_message 500,
            service := r.service, occurrence_count := res.occurrence_count,
            time_window := res.time_window }
          ({ acc3 with state := s3, dispatches := acc3.dispatches ++ [ev] }, true)
      | none => (acc3, true)
    else
      ({ acc2 with aborted := true }, false)
  else
    ({ acc with
       state := step.2
       latest_timestamp := latest2
       evaluated := acc.evaluated ++ [r] }, true)

/-- The `for row in results` loop of `detect`: fold `detectStep` over the
batch, stopping early when an insert raised. -/
def detectLoop (now : Int) (persistOk : LogRecord → Bool) :
    DetectPass → List LogRecord → DetectPass
  | acc, [] => acc
  | acc, r :: rest =>
    let step := detectStep now persistOk acc r
    if step.2 then detectLoop now persistOk step.1 rest else step.1

/-- The detection query over the log store: records strictly after the
watermark (when one exists) and strictly within the last
`detection_window_minutes`, in store order. -/
def queryLogs (store : List LogRecord) (wm : Option Int) (now : Int)
    (window_minutes : Int) : List LogRecord :=
  store.filter (fun r =>
    (match wm with
     | some w => decide (w < r.timestamp)
     | none => true) && decide (now - window_minutes * 60 < r.timestamp))

/-- Fresh accumulator for a `detect` pass starting from state `s`. -/
def emptyPass (s : DetectorState) : DetectPass :=
  { state := s, latest_timestamp := none, anomaly_count := 0,
    persisted := [], dispatches := [], evaluated := [], aborted := false }

/-- `detect`: run cleanup, consult the rate limiter (denial skips the whole
pass), query the log store for new records, evaluate them in order, and
finally advance the watermark to the latest timestamp seen — unless the
pass was aborted by a store failure, in which case the watermark is left
unchanged. -/
def detect (s : DetectorState) (now : Int) (store : List LogRecord)
    (persistOk : LogRecord → Bool) : DetectPass :=
  let s1 := cleanup_expired_data s now
  if check_rate_limit s1 then emptyPass s1
  else
    let logs := queryLogs store s1.last_processed_timestamp now
      s1.settings.detection_window_minutes
    if logs.isEmpty then emptyPass s1
    else
      let pass := detectLoop now persistOk (emptyPass s1) logs
      if pass.aborted then pass
      else
        match pass.latest_timestamp with
        | some t =>
          { pass with state := { pass.state with last_processed_timestamp := some t } }
        | none => pass

/-- Row of the `anomaly_rules` table as fetched by `_load_rules` (a NULL or
zero numeric column is modelled as `0`, which is falsy in Python). -/
structure RuleRow where
  id : String
  rule_type : String
  rule_value : String
  severity : String
  score : Rat
  description : String
  is_active : Bool
  time_window_minutes : Int
  threshold_count : Int
  cooldown_minutes : Int
deriving DecidableEq, Repr

/-- Hardcoded default level rules installed by `_set_default_rules`. -/
def defaultLevelRules : List (String × AnomalyRule) :=
  [("ERROR", { id := "default-1", rule_type := "level", rule_value := "ERROR",
               severity := "critical", score := 1, description := "ERROR 레벨",
               is_active := true }),
   ("CRITICAL", { id := "default-2", rule_type := "level", rule_value := "CRITICAL",
                  severity := "critical", score := 1, description := "CRITICAL 레벨",
                  is_active := true })]

/-- Hardcoded default keyword rules installed by `_set_default_rules`. -/
def defaultKeywordRules : List AnomalyRule :=
  [{ id := "default-3", rule_type := "keyword", rule_value := "Recog error",
     severity := "critical", score := 19/20, description := "인식 오류",
     is_active := true },
   { id := "default-4", rule_type := "keyword", rule_value := "Placement error",
     severity := "critical", score := 19/20, description := "배치 오류",
     is_active := true }]

/-- `_set_default_rules`: overwrite all four rule indices with the
hardcoded defaults (used on any rule-load failure). -/
def set_default_rules (s : DetectorState) : DetectorState :=
  { s with level_rules := defaultLevelRules, keyword_rules := defaultKeywordRules,
           frequency_rules := [], safe_templates := [] }

/-- Construction of an `AnomalyRule` from a fetched row, with Python
falsy-or defaulting of the three numeric columns. -/
def buildRule (s : DetectorState) (row : RuleRow) : AnomalyRule :=
  { id := row.id, rule_type := row.rule_type, rule_value := row.rule_value,
    severity := row.severity, score := row.score, description := row.description,
    is_active := row.is_active,
    time_window_minutes := if row.time_window_minutes = 0 then 5
      else row.time_window_minutes,
    threshold_count := if row.threshold_count = 0 then 1 else row.threshold_count,
    cooldown_minutes := if row.cooldown_minutes = 0 then
      s.settings.default_cooldown_minutes else row.cooldown_minutes }

/-- Dispatch of one built rule into its index.  A `safe_template` rule whose
value is not an integer makes `int(rule.rule_value)` raise, modelled as
`none`. -/
def insertLoadedRule (s : DetectorState) (rule : AnomalyRule) :
    Option DetectorState :=
  if rule.rule_type = "level" then
    some { s with level_rules := dictInsert s.level_rules (strUpper rule.rule_value) rule }
  else if rule.rule_type = "keyword" then
    some { s with keyword_rules := s.keyword_rules ++ [rule] }
  else if rule.rule_type = "frequency" then
    some { s with frequency_rules := s.frequency_rules ++ [rule] }
  else if rule.rule_type = "safe_template" then
    match rule.rule_value.toInt? with
    | some n => some { s with safe_templates :=
        if s.safe_templates.contains n then s.safe_templates
        else s.safe_templates ++ [n] }
    | none => none
  else some s

/-- The `for row in results` loop of `_load_rules`. -/
def loadRows : DetectorState → List RuleRow → Option DetectorState
  | s, [] => some s
  | s, row :: rest =>
    match insertLoadedRule s (buildRule s row) with
    | some s2 => loadRows s2 rest
    | none => none

/-- `_load_rules`: on a successful fetch, clear the four indices and rebuild
them from the rows, stamping `rules_loaded_at`; on a fetch failure — or an
exception while inserting a row — fall through to `_set_default_rules`,
which overwrites all four indices with the hardcoded defaults whether or
not a previous snapshot existed. -/
def load_rules (s : DetectorState) (now : Int)
    (fetch : Except Unit (List RuleRow)) : DetectorState :=
  match fetch with
  | Except.error _ => set_default_rules s
  | Except.ok rows =>
    let cleared := { s with
      level_rules := []
      keyword_rules := []
      frequency_rules := []
      safe_templates := [] }
    match loadRows cleared rows with
    | some s2 => { s2 with rules_loaded_at := some now }
    | none => set_default_rules s

/-! Concrete rule snapshots used by the example scenarios and witnesses. -/

/-- Example global settings (the dataclass defaults). -/
def exSettings : GlobalSettings := {}

/-- Example level rule `ERROR` (critical, score 1.0). -/
def exLevelRule : AnomalyRule :=
  { id := "r1", rule_type := "level", rule_value := "ERROR", severity := "critical",
    score := 1, description := "ERROR level", is_active := true }

/-- Example keyword rule `timeout` (warning, score 0.7). -/
def exKeywordRule : AnomalyRule :=
  { id := "r2", rule_type := "keyword", rule_value := "timeout", severity := "warning",
    score := 7/10, description := "timeout keyword", is_active := true }

/-- Example frequency rule `jam` (5-minute window, threshold 3). -/
def exJamRule : AnomalyRule :=
  { id := "r3", rule_type := "frequency", rule_value := "jam", severity := "warning",
    score := 8/10, description := "jam burst", is_active := true,
    time_window_minutes := 5, threshold_count := 3, cooldown_minutes := 30 }

/-- Example detector state holding the three rules above and safe template 42. -/
def exState : DetectorState :=
  { level_rules := [("ERROR", exLevelRule)]
    keyword_rules := [exKeywordRule]
    frequency_rules := [exJamRule]
    safe_templates := [42]
    rules_loaded_at := some 0
    settings := exSettings
    cooldown_tracker := []
    frequency_tracker := []
    anomaly_count_tracker := []
    last_processed_timestamp := none }

/-- Sliding window survivors of one `_check_frequency` call: the dimension's
recorded timestamps plus `now`, pruned to the rule's window. -/
def freqSurvivors (s : DetectorState) (r : AnomalyRule) (tid : Int) (now : Int) :
    List Int :=
  (ftGet s.frequency_tracker (r.rule_value, tid) ++ [now]).filter
    (fun ts => decide (now - r.time_window_minutes * 60 < ts))

/-- Message used by the frequency scenario. -/
def jamMsg : String := "paper jam detected"

/-- State after the first `jam` occurrence (time 0, template 7). -/
def jamState1 : DetectorState := (check_log exState 0 "INFO" 7 jamMsg).2

/-- State after the second `jam` occurrence (time 60). -/
def jamState2 : DetectorState := (check_log jamState1 60 "INFO" 7 jamMsg).2

/-- Fold computing the loop-local `latest_timestamp` of a `detect` pass. -/
def foldLatest (acc : Option Int) (l : List LogRecord) : Option Int :=
  l.foldl latestStep acc

/-- Two-record log store used by the batch scenarios: an anomalous `ERROR`
record at time 100 and a quiet `INFO` record at time 150. -/
def store1 : List LogRecord :=
  [{ timestamp := 100, log_level := "ERROR", service := "svc", template_id := 5,
     raw_message := "disk full" },
   { timestamp := 150, log_level := "INFO", service := "svc", template_id := 7,
     raw_message := "all good" }]

/-- Persist oracle failing exactly on the record timestamped 100. -/
def failPersist : LogRecord → Bool := fun r => decide (r.timestamp ≠ 100)

/-- Level rule `ERROR` with a 100-minute cooldown. -/
def cdRule : AnomalyRule :=
  { id := "r4", rule_type := "level", rule_value := "ERROR", severity := "critical",
    score := 1, description := "ERROR level", is_active := true,
    cooldown_minutes := 100 }

/-- State holding only `cdRule`, with the dimension `(level, ERROR, 5)`
marked triggered 70 minutes before time 7000 (within the 100-minute
cooldown, but past twice the 30-minute default that cleanup uses). -/
def cdState : DetectorState :=
  { level_rules := [("ERROR", cdRule)]
    keyword_rules := []
    frequency_rules := []
    safe_templates := []
    rules_loaded_at := some 0
    settings := exSettings
    cooldown_tracker := [(("level", "ERROR", 5), 2800)]
    frequency_tracker := []
    anomaly_count_tracker := []
    last_processed_timestamp := none }

/-- Like `cdState` but with the trigger recorded recently enough (1000
seconds before time 7000) to survive cleanup. -/
def cdStateKeep : DetectorState :=
  { cdState with cooldown_tracker := [(("level", "ERROR", 5), 6000)] }

/-- Single `ERROR` record at time 6900 for the cooldown scenarios. -/
def cdStore : List LogRecord :=
  [{ timestamp := 6900, log_level := "ERROR", service := "svc", template_id := 5,
     raw_message := "boom" }]

/-- Custom `WARN` level rule held by a previously loaded snapshot. -/
def warnRule : AnomalyRule :=
  { id := "w1", rule_type := "level", rule_value := "WARN", severity := "warning",
    score := 1/2, description := "WARN level", is_active := true }

/-- Snapshot from a previous successful load (a WARN rule,
`rules_loaded_at` set). -/
def prevState : DetectorState :=
  { exState with level_rules := [("WARN", warnRule)], rules_loaded_at := some 100 }

/-- State whose per-minute anomaly counter already holds 10 entries at time
190 (within 60 seconds of time 200). -/
def rateState : DetectorState :=
  { exState with anomaly_count_tracker := List.replicate 10 190 }

/-- C1: a record whose level (case-insensitively) is in the level index is
immediately flagged with `rule_type = "level"`, the matching rule's severity
and score, `occurrence_count` left at 0, and the state untouched — for every
message, so a message matching a keyword rule still resolves to the level
rule. -/
theorem check_log_level_precedence (s : DetectorState) (now : Int)
    (level : String) (template_id : Int) (message : String) (rule : AnomalyRule)
    (h : lookupRule s.level_rules (strUpper level) = some rule) :
    check_log s now level template_id message =
      ({ is_anomaly := true, rule_type := "level", rule_value := strUpper level,
         severity := rule.severity, score := rule.score,
         description := rule.description, occurrence_count := 0,
         time_window := 0 }, s) := by
  simp only [check_log]
  rw [h]

/-- Witness for C1: level `error` on a message containing the keyword
`timeout` still resolves to the level rule. -/
theorem check_log_level_precedence_witness :
    lookupRule exState.level_rules (strUpper "error") = some exLevelRule
    ∧ strHas (strLower "request timeout") (strLower exKeywordRule.rule_value) = true
    ∧ check_log exState 0 "error" 5 "request timeout" =
      ({ is_anomaly := true, rule_type := "level", rule_value := strUpper "error",
         severity := exLevelRule.severity, score := exLevelRule.score,
         description := exLevelRule.description, occurrence_count := 0,
         time_window := 0 }, exState) :=
  ⟨rfl, rfl,
    check_log_level_precedence exState 0 "error" 5 "request timeout" exLevelRule rfl⟩

/-- C9: every `check_log` result is classified consistently: it is an anomaly
exactly when its rule type is `level`, `keyword` or `frequency`, and a
non-anomaly exactly when its rule type is `safe_template` or `unknown`
(`check_log` is total by construction). -/
theorem check_log_result_classifies (s : DetectorState) (now : Int)
    (level : String) (template_id : Int) (message : String) :
    ((check_log s now level template_id message).1.is_anomaly = true
      ↔ ((check_log s now level template_id message).1.rule_type = "level"
        ∨ (check_log s now level template_id message).1.rule_type = "keyword"
        ∨ (check_log s now level template_id message).1.rule_type = "frequency"))
    ∧ ((check_log s now level template_id message).1.is_anomaly = false
      ↔ ((check_log s now level template_id message).1.rule_type = "safe_template"
        ∨ (check_log s now level template_id message).1.rule_type = "unknown")) := by
  rcases hl : lookupRule s.level_rules (strUpper level) with _ | lrule
  · rcases hk : List.find? (fun rule => strHas (strLower message) (strLower rule.rule_value))
        s.keyword_rules with _ | krule
    · rcases hf : freqScan s.frequency_rules template_id message now s.frequency_tracker
          with ⟨fres, tr2⟩
      rcases fres with _ | fp
      · by_cases hs : template_id ∈ s.safe_templates
        · simp [check_log, hl, hk, hf, hs]
        · simp [check_log, hl, hk, hf, hs]
      · rcases fp with ⟨frule, fcount⟩
        simp [check_log, hl, hk, hf]
    · simp [check_log, hl, hk]
  · simp [check_log, hl]

/-- C10: when the result's rule type is `level` or `keyword`, `check_log`
returned before the frequency step, so the state — the frequency tracker in
particular — is completely unchanged. -/
theorem check_log_high_precedence_frame (s : DetectorState) (now : Int)
    (level : String) (template_id : Int) (message : String)
    (h : (check_log s now level template_id message).1.rule_type = "level"
       ∨ (check_log s now level template_id message).1.rule_type = "keyword") :
    (check_log s now level template_id message).2 = s := by
  rcases hl : lookupRule s.level_rules (strUpper level) with _ | lrule
  · rcases hk : List.find? (fun rule => strHas (strLower message) (strLower rule.rule_value))
        s.keyword_rules with _ | krule
    · rcases hf : freqScan s.frequency_rules template_id message now s.frequency_tracker
          with ⟨fres, tr2⟩
      rcases fres with _ | fp
      · by_cases hs : template_id ∈ s.safe_templates
        · simp [check_log, hl, hk, hf, hs] at h
        · simp [check_log, hl, hk, hf, hs] at h
      · rcases fp with ⟨frule, fcount⟩
        simp [check_log, hl, hk, hf] at h
    · simp only [check_log, hl, hk]
  · simp only [check_log, hl]

/-- Witness for C10: a keyword match leaves the state untouched. -/
theorem check_log_high_precedence_frame_witness :
    ((check_log exState 0 "INFO" 9 "request timeout occurred").1.rule_type = "level"
      ∨ (check_log exState 0 "INFO" 9 "request timeout occurred").1.rule_type = "keyword")
    ∧ (check_log exState 0 "INFO" 9 "request timeout occurred").2 = exState :=
  ⟨Or.inr rfl,
   check_log_high_precedence_frame exState 0 "INFO" 9 "request timeout occurred"
     (Or.inr rfl)⟩

/-- C2: when no level or keyword rule matches and the single frequency rule's
value is a case-insensitive substring of the message, `check_log` appends the
current time to the dimension's window, prunes entries outside
`time_window_minutes`, and reports an anomaly with `occurrence_count` equal
to the surviving count and `time_window` equal to the rule's window exactly
when the count reaches `threshold_count`; concretely, with threshold 3 and a
5-minute window, two `jam` occurrences stay quiet and the third within the
window fires with `occurrence_count = 3`. -/
theorem check_log_frequency_window (s : DetectorState) (now : Int)
    (level : String) (tid : Int) (msg : String) (r : AnomalyRule)
    (hlv : lookupRule s.level_rules (strUpper level) = none)
    (hkw : ∀ ru ∈ s.keyword_rules, strHas (strLower msg) (strLower ru.rule_value) = false)
    (hfr : s.frequency_rules = [r])
    (hsub : strHas (strLower msg) (strLower r.rule_value) = true) :
    ((check_log s now level tid msg).2.frequency_tracker
      = ftSet s.frequency_tracker (r.rule_value, tid) (freqSurvivors s r tid now))
    ∧ ((check_log s now level tid msg).1.is_anomaly
        = decide (r.threshold_count ≤ ((freqSurvivors s r tid now).length : Int)))
    ∧ ((check_log s now level tid msg).1.is_anomaly = true →
        (check_log s now level tid msg).1.rule_type = "frequency"
        ∧ (check_log s now level tid msg).1.occurrence_count
            = (freqSurvivors s r tid now).length
        ∧ (check_log s now level tid msg).1.time_window = r.time_window_minutes)
    ∧ ((check_log exState 0 "INFO" 7 jamMsg).1.is_anomaly = false
        ∧ (check_log jamState1 60 "INFO" 7 jamMsg).1.is_anomaly = false
        ∧ (check_log jamState2 120 "INFO" 7 jamMsg).1.is_anomaly = true
        ∧ (check_log jamState2 120 "INFO" 7 jamMsg).1.occurrence_count = 3
        ∧ (check_log jamState2 120 "INFO" 7 jamMsg).1.time_window = 5) := by
  have hk2 : List.find? (fun rule => strHas (strLower msg) (strLower rule.rule_value))
      s.keyword_rules = none :=
    List.find?_eq_none.mpr (fun x hx => by simp [hkw x hx])
  have hcf : check_frequency r tid msg now s.frequency_tracker
      = ((decide (r.threshold_count ≤ ((freqSurvivors s r tid now).length : Int)),
          (freqSurvivors s r tid now).length),
         ftSet s.frequency_tracker (r.rule_value, tid) (freqSurvivors s r tid now)) := by
    by_cases hth : r.threshold_count ≤ ((freqSurvivors s r tid now).length : Int)
    · simp only [freqSurvivors] at hth
      simp only [check_frequency, hsub, eq_self_iff_true, if_true, freqSurvivors]
      rw [if_pos hth]
      simp only [List.filter_append, List.length_append, Nat.cast_add] at hth
      simp [hth]
    · simp only [freqSurvivors] at hth
      simp only [check_frequency, hsub, eq_self_iff_true, if_true, freqSurvivors]
      rw [if_neg hth]
      simp only [List.filter_append, List.length_append, Nat.cast_add] at hth
      simp [hth]
  have hscan : freqScan s.frequency_rules tid msg now s.frequency_tracker
      = (if r.threshold_count ≤ ((freqSurvivors s r tid now).length : Int) then
           some (r, (freqSurvivors s r tid now).length) else none,
         ftSet s.frequency_tracker (r.rule_value, tid) (freqSurvivors s r tid now)) := by
    rw [hfr]
    simp only [freqScan, hcf]
    by_cases hth : r.threshold_count ≤ ((freqSurvivors s r tid now).length : Int)
    · simp [hth]
    · simp [hth, freqScan]
  refine ⟨?_, ?_, ?_, rfl, rfl, rfl, rfl, rfl⟩
  · by_cases hth : r.threshold_count ≤ ((freqSurvivors s r tid now).length : Int)
    · simp [check_log, hlv, hk2, hscan, hth]
    · by_cases hs : tid ∈ s.safe_templates <;>
        simp [check_log, hlv, hk2, hscan, hth, hs]
  · by_cases hth : r.threshold_count ≤ ((freqSurvivors s r tid now).length : Int)
    · simp [check_log, hlv, hk2, hscan, hth]
    · by_cases hs : tid ∈ s.safe_templates <;>
        simp [check_log, hlv, hk2, hscan, hth, hs]
  · intro hano
    by_cases hth : r.threshold_count ≤ ((freqSurvivors s r tid now).length : Int)
    · refine ⟨?_, ?_, ?_⟩ <;> simp [check_log, hlv, hk2, hscan, hth]
    · exfalso
      by_cases hs : tid ∈ s.safe_templates <;>
        simp [check_log, hlv, hk2, hscan, hth, hs] at hano

/-- Witness for C2 at the third `jam` occurrence: the window holds 3 entries
and the threshold-3 rule fires. -/
theorem check_log_frequency_window_witness :
    strHas (strLower jamMsg) (strLower exJamRule.rule_value) = true
    ∧ ((freqSurvivors jamState2 exJamRule 7 120).length : Int) = 3
    ∧ (check_log jamState2 120 "INFO" 7 jamMsg).1.is_anomaly
        = decide (exJamRule.threshold_count
            ≤ ((freqSurvivors jamState2 exJamRule 7 120).length : Int)) :=
  ⟨rfl, rfl,
    (check_log_frequency_window jamState2 120 "INFO" 7 jamMsg exJamRule rfl
      (by decide) rfl rfl).2.1⟩

/-- C5 counterexample: with a previously loaded snapshot in place, a failing
rule fetch does not keep serving that snapshot — the WARN rule disappears
and the hardcoded defaults (which also contain two keyword rules) take its
place. -/
theorem load_rules_failure_counterexample :
    prevState.rules_loaded_at = some 100
    ∧ (lookupRule prevState.level_rules "WARN").map (fun r => r.id) = some "w1"
    ∧ lookupRule (load_rules prevState 0 (Except.error ())).level_rules "WARN" = none
    ∧ ((load_rules prevState 0 (Except.error ())).level_rules.map (fun p => p.1))
        = ["ERROR", "CRITICAL"]
    ∧ ((load_rules prevState 0 (Except.error ())).keyword_rules.map
        (fun r => r.rule_value)) = ["Recog error", "Placement error"] :=
  ⟨rfl, rfl, rfl, rfl, rfl⟩

/-- C5 (amended): every rule-load failure replaces the cache with the
hardcoded default rule set — level rules ERROR and CRITICAL flagged critical
plus two critical keyword rules — whether or not a previous snapshot
existed; settings, trackers and the watermark are untouched. -/
theorem load_rules_failure_resets_to_defaults (s : DetectorState) (now : Int) :
    load_rules s now (Except.error ()) = set_default_rules s
    ∧ (set_default_rules s).level_rules = defaultLevelRules
    ∧ (set_default_rules s).keyword_rules = defaultKeywordRules
    ∧ (set_default_rules s).frequency_rules = []
    ∧ (set_default_rules s).safe_templates = []
    ∧ (set_default_rules s).settings = s.settings
    ∧ (set_default_rules s).cooldown_tracker = s.cooldown_tracker
    ∧ (set_default_rules s).frequency_tracker = s.frequency_tracker
    ∧ (set_default_rules s).last_processed_timestamp = s.last_processed_timestamp :=
  ⟨rfl, rfl, rfl, rfl, rfl, rfl, rfl, rfl, rfl⟩

/-- C7: once `max_anomalies_per_minute` anomaly timestamps fall within the
last 60 seconds, the next `detect` pass is skipped entirely: the result does
not depend on the log store, no record is evaluated, nothing is persisted or
dispatched, and the state is exactly the staleness cleanup of the previous
state with the watermark unchanged. -/
theorem detect_rate_limited (s : DetectorState) (now : Int)
    (store : List LogRecord) (persistOk : LogRecord → Bool)
    (h : s.settings.max_anomalies_per_minute
        ≤ ((s.anomaly_count_tracker.filter
            (fun ts => decide (now - 60 < ts))).length : Int)) :
    detect s now store persistOk = emptyPass (cleanup_expired_data s now)
    ∧ (detect s now store persistOk).evaluated = []
    ∧ (detect s now store persistOk).persisted = []
    ∧ (detect s now store persistOk).dispatches = []
    ∧ (detect s now store persistOk).state.last_processed_timestamp
        = s.last_processed_timestamp
    ∧ (∀ store2, detect s now store2 persistOk = detect s now store persistOk) := by
  have hrl : check_rate_limit (cleanup_expired_data s now) = true := by
    simp only [check_rate_limit, cleanup_expired_data]
    exact decide_eq_true h
  have hd : ∀ st : List LogRecord,
      detect s now st persistOk = emptyPass (cleanup_expired_data s now) := by
    intro st
    simp only [detect, hrl, eq_self_iff_true, if_true]
  refine ⟨hd store, ?_, ?_, ?_, ?_, fun store2 => (hd store2).trans (hd store).symm⟩
  · rw [hd store]; rfl
  · rw [hd store]; rfl
  · rw [hd store]; rfl
  · rw [hd store]; rfl

/-- Witness for C7: ten anomalies recorded at time 190 deny the pass at time
200 even though the store holds a fresh `ERROR` record. -/
theorem detect_rate_limited_witness :
    (rateState.settings.max_anomalies_per_minute
      ≤ ((rateState.anomaly_count_tracker.filter
          (fun ts => decide ((200 : Int) - 60 < ts))).length : Int))
    ∧ detect rateState 200 store1 (fun _ => true)
        = emptyPass (cleanup_expired_data rateState 200) :=
  ⟨by decide,
    (detect_rate_limited rateState 200 store1 (fun _ => true) (by decide)).1⟩

/-- Cooldown read on a cons cell whose head key matches. -/
theorem cdGet_cons_self (p : CooldownKey × Int) (rest : List (CooldownKey × Int))
    (k : CooldownKey) (h : p.1 = k) : cdGet (p :: rest) k = some p.2 := by
  simp [cdGet, List.find?, h]

/-- Cooldown read on a cons cell whose head key differs. -/
theorem cdGet_cons_ne (p : CooldownKey × Int) (rest : List (CooldownKey × Int))
    (k : CooldownKey) (h : ¬p.1 = k) : cdGet (p :: rest) k = cdGet rest k := by
  simp [cdGet, List.find?, h]

/-- Reading a dimension after a cooldown write: the written key reads the new
value, every other key is untouched. -/
theorem cdGet_cdSet (t : List (CooldownKey × Int)) (k k2 : CooldownKey) (v : Int) :
    cdGet (cdSet t k2 v) k = if k = k2 then some v else cdGet t k := by
  induction t with
  | nil =>
    by_cases h : k = k2
    · subst h; simp [cdGet, cdSet, List.find?]
    · simp [cdGet, cdSet, List.find?, Ne.symm h, h]
  | cons p rest ih =>
    simp only [cdSet]
    by_cases h2 : p.1 = k2
    · rw [if_pos h2]
      by_cases h : k = k2
      · subst h
        rw [cdGet_cons_self _ _ _ rfl, if_pos rfl]
      · rw [cdGet_cons_ne _ _ _ (Ne.symm h), if_neg h,
          cdGet_cons_ne _ _ _ (fun hh => h (h2 ▸ hh).symm)]
    · rw [if_neg h2]
      by_cases hpk : p.1 = k
      · have hk2 : k ≠ k2 := fun hh => h2 (hpk.trans hh)
        rw [cdGet_cons_self _ _ _ hpk, if_neg hk2, cdGet_cons_self _ _ _ hpk]
      · rw [cdGet_cons_ne _ _ _ hpk, ih, cdGet_cons_ne _ _ _ hpk]

/-- A cooldown entry that passes the retention predicate is still read back
unchanged after the cleanup filter. -/
theorem cdGet_filter_keep (t : List (CooldownKey × Int)) (k : CooldownKey)
    (v c : Int) (hget : cdGet t k = some v) (hkeep : c ≤ v) :
    cdGet (t.filter (fun p => decide (c ≤ p.2))) k = some v := by
  induction t with
  | nil => simp [cdGet] at hget
  | cons p rest ih =>
    by_cases hpk : p.1 = k
    · rw [cdGet_cons_self _ _ _ hpk] at hget
      have hv : p.2 = v := Option.some.inj hget
      have hc : c ≤ p.2 := hv ▸ hkeep
      rw [List.filter_cons_of_pos (by simpa using hc), cdGet_cons_self _ _ _ hpk, hv]
    · rw [cdGet_cons_ne _ _ _ hpk] at hget
      by_cases hc : c ≤ p.2
      · rw [List.filter_cons_of_pos (by simpa using hc), cdGet_cons_ne _ _ _ hpk]
        exact ih hget
      · rw [List.filter_cons_of_neg (by simpa using hc)]
        exact ih hget

/-- A dimension absent from the tracker stays absent after the cleanup
filter. -/
theorem cdGet_none_filter (t : List (CooldownKey × Int)) (k : CooldownKey)
    (c : Int) (h : cdGet t k = none) :
    cdGet (t.filter (fun p => decide (c ≤ p.2))) k = none := by
  induction t with
  | nil => simp [cdGet]
  | cons p rest ih =>
    by_cases hpk : p.1 = k
    · rw [cdGet_cons_self _ _ _ hpk] at h
      exact absurd h (by simp)
    · rw [cdGet_cons_ne _ _ _ hpk] at h
      by_cases hc : c ≤ p.2
      · rw [List.filter_cons_of_pos (by simpa using hc), cdGet_cons_ne _ _ _ hpk]
        exact ih h
      · rw [List.filter_cons_of_neg (by simpa using hc)]
        exact ih h

/-- A key outside the tracker's key list reads back nothing. -/
theorem cdGet_none_of_not_mem (t : List (CooldownKey × Int)) (k : CooldownKey)
    (h : k ∉ t.map (fun p => p.1)) : cdGet t k = none := by
  induction t with
  | nil => simp [cdGet]
  | cons p rest ih =>
    simp only [List.map_cons, List.mem_cons] at h
    push_neg at h
    rw [cdGet_cons_ne _ _ _ (fun hh => h.1 hh.symm)]
    exact ih h.2

/-- With unique keys, the cleanup filter acts on a dimension exactly by the
retention predicate: the entry survives unchanged or is gone. -/
theorem cdGet_filter_of_nodup (t : List (CooldownKey × Int)) (k : CooldownKey)
    (v c : Int) (hnd : (t.map (fun p => p.1)).Nodup)
    (hget : cdGet t k = some v) :
    cdGet (t.filter (fun p => decide (c ≤ p.2))) k
      = if c ≤ v then some v else none := by
  induction t with
  | nil => simp [cdGet] at hget
  | cons p rest ih =>
    have hnd1 : (p.1 :: rest.map (fun q => q.1)).Nodup := by
      simpa only [List.map_cons] using hnd
    have hnd2 := (List.nodup_cons.mp hnd1).2
    by_cases hpk : p.1 = k
    · rw [cdGet_cons_self _ _ _ hpk] at hget
      have hv : p.2 = v := Option.some.inj hget
      have hrest : cdGet rest k = none :=
        cdGet_none_of_not_mem rest k (by
          have hni := (List.nodup_cons.mp hnd1).1
          exact fun hm => hni (hpk ▸ hm))
      by_cases hc : c ≤ p.2
      · rw [List.filter_cons_of_pos (by simpa using hc), cdGet_cons_self _ _ _ hpk,
          hv, if_pos (hv ▸ hc)]
      · rw [List.filter_cons_of_neg (by simpa using hc), if_neg (fun hh => hc (hv ▸ hh))]
        exact cdGet_none_filter rest k c hrest
    · rw [cdGet_cons_ne _ _ _ hpk] at hget
      by_cases hc : c ≤ p.2
      · rw [List.filter_cons_of_pos (by simpa using hc), cdGet_cons_ne _ _ _ hpk]
        exact ih hnd2 hget
      · rw [List.filter_cons_of_neg (by simpa using hc)]
        exact ih hnd2 hget

/-- The state returned by `check_log` differs from its input at most in the
frequency tracker: all rule indices, settings, the cooldown tracker, the
per-minute counter and the watermark are unchanged. -/
theorem check_log_preserves (s : DetectorState) (now : Int) (level : String)
    (tid : Int) (msg : String) :
    (check_log s now level tid msg).2.level_rules = s.level_rules
    ∧ (check_log s now level tid msg).2.keyword_rules = s.keyword_rules
    ∧ (check_log s now level tid msg).2.frequency_rules = s.frequency_rules
    ∧ (check_log s now level tid msg).2.safe_templates = s.safe_templates
    ∧ (check_log s now level tid msg).2.settings = s.settings
    ∧ (check_log s now level tid msg).2.cooldown_tracker = s.cooldown_tracker
    ∧ (check_log s now level tid msg).2.anomaly_count_tracker
        = s.anomaly_count_tracker
    ∧ (check_log s now level tid msg).2.last_processed_timestamp
        = s.last_processed_timestamp := by
  rcases hl : lookupRule s.level_rules (strUpper level) with _ | lrule
  · rcases hk : List.find? (fun rule => strHas (strLower msg) (strLower rule.rule_value))
        s.keyword_rules with _ | krule
    · rcases hf : freqScan s.frequency_rules tid msg now s.frequency_tracker
          with ⟨fres, tr2⟩
      rcases fres with _ | fp
      · by_cases hs : tid ∈ s.safe_templates <;>
          simp [check_log, hl, hk, hf, hs]
      · rcases fp with ⟨frule, fcount⟩
        simp [check_log, hl, hk, hf]
    · simp [check_log, hl, hk]
  · simp [check_log, hl]

/-- `find_rule` only reads the three rule indices. -/
theorem find_rule_congr (s s2 : DetectorState) (rt rv : String)
    (h1 : s2.level_rules = s.level_rules) (h2 : s2.keyword_rules = s.keyword_rules)
    (h3 : s2.frequency_rules = s.frequency_rules) :
    find_rule s2 rt rv = find_rule s rt rv := by
  simp [find_rule, h1, h2, h3]

/-- `effCooldown` only reads the settings. -/
theorem effCooldown_congr (s s2 : DetectorState) (rule : AnomalyRule)
    (h : s2.settings = s.settings) : effCooldown s2 rule = effCooldown s rule := by
  simp [effCooldown, h]

/-- One loop iteration never touches the rule indices, settings or the
watermark of the state; it appends exactly the processed record to
`evaluated` and advances `latest_timestamp` by `latestStep`. -/
theorem detectStep_fields (now : Int) (ok : LogRecord → Bool) (acc : DetectPass)
    (r : LogRecord) :
    (detectStep now ok acc r).1.state.level_rules = acc.state.level_rules
    ∧ (detectStep now ok acc r).1.state.keyword_rules = acc.state.keyword_rules
    ∧ (detectStep now ok acc r).1.state.frequency_rules = acc.state.frequency_rules
    ∧ (detectStep now ok acc r).1.state.safe_templates = acc.state.safe_templates
    ∧ (detectStep now ok acc r).1.state.settings = acc.state.settings
    ∧ (detectStep now ok acc r).1.state.last_processed_timestamp
        = acc.state.last_processed_timestamp
    ∧ (detectStep now ok acc r).1.evaluated = acc.evaluated ++ [r]
    ∧ (detectStep now ok acc r).1.latest_timestamp
        = latestStep acc.latest_timestamp r := by
  obtain ⟨p1, p2, p3, p4, p5, p6, p7, p8⟩ :=
    check_log_preserves acc.state now r.log_level r.template_id r.raw_message
  simp only [detectStep]
  repeat' split
  all_goals refine ⟨?_, ?_, ?_, ?_, ?_, ?_, ?_, ?_⟩ <;>
    simp [update_cooldown, p1, p2, p3, p4, p5, p6, p7, p8]

/-- When the anomaly-store insert succeeds, the iteration continues, the
abort flag is untouched, and persisted rows track the anomaly count
one-for-one. -/
theorem detectStep_ok (now : Int) (ok : LogRecord → Bool) (acc : DetectPass)
    (r : LogRecord) (hok : ok r = true) :
    (detectStep now ok acc r).2 = true
    ∧ (detectStep now ok acc r).1.aborted = acc.aborted
    ∧ (detectStep now ok acc r).1.persisted.length + acc.anomaly_count
        = (detectStep now ok acc r).1.anomaly_count + acc.persisted.length := by
  simp only [detectStep]
  repeat' split
  all_goals
    first
    | exact absurd hok (by assumption)
    | (refine ⟨rfl, rfl, ?_⟩
       simp only [List.length_append, List.length_cons, List.length_nil]
       omega)

/-- A continuing iteration leaves the abort flag as it was. -/
theorem detectStep_continue (now : Int) (ok : LogRecord → Bool) (acc : DetectPass)
    (r : LogRecord) (h : (detectStep now ok acc r).2 = true) :
    (detectStep now ok acc r).1.aborted = acc.aborted := by
  revert h
  simp only [detectStep]
  repeat' split
  all_goals intro h
  all_goals try simp at h
  all_goals rfl

/-- A stopped iteration means the insert failed on this record and the abort
flag was raised. -/
theorem detectStep_abort (now : Int) (ok : LogRecord → Bool) (acc : DetectPass)
    (r : LogRecord) (h : (detectStep now ok acc r).2 = false) :
    ok r = false ∧ (detectStep now ok acc r).1.aborted = true := by
  revert h
  simp only [detectStep]
  repeat' split
  all_goals intro h
  all_goals try simp at h
  all_goals exact ⟨by simpa using (by assumption : ¬ok r = true), rfl⟩

/-- `_is_on_cooldown` only reads the cooldown tracker and the settings. -/
theorem is_on_cooldown_congr (s s2 : DetectorState) (rule : AnomalyRule)
    (tid now : Int) (h1 : s2.cooldown_tracker = s.cooldown_tracker)
    (h2 : s2.settings = s.settings) :
    is_on_cooldown s2 rule tid now = is_on_cooldown s rule tid now := by
  unfold is_on_cooldown
  rw [h1]
  cases cdGet s.cooldown_tracker (rule.rule_type, rule.rule_value, tid) with
  | none => rfl
  | some t => simp [effCooldown, h2]

/-- Dispatch behaviour of one iteration: either the cooldown tracker and the
dispatch list are untouched, or the record's result resolved to a rule that
was off cooldown, in which case the iteration marks that rule's dimension
and appends exactly one event carrying the result's rule type and value and
the record's template id. -/
theorem detectStep_dispatch_spec (now : Int) (ok : LogRecord → Bool)
    (acc : DetectPass) (r : LogRecord) :
    ((detectStep now ok acc r).1.state.cooldown_tracker = acc.state.cooldown_tracker
      ∧ (detectStep now ok acc r).1.dispatches = acc.dispatches)
    ∨ (∃ rule2,
        find_rule acc.state
            (check_log acc.state now r.log_level r.template_id r.raw_message).1.rule_type
            (check_log acc.state now r.log_level r.template_id r.raw_message).1.rule_value
          = some rule2
        ∧ is_on_cooldown acc.state rule2 r.template_id now = false
        ∧ (detectStep now ok acc r).1.state.cooldown_tracker
            = cdSet acc.state.cooldown_tracker
                (rule2.rule_type, rule2.rule_value, r.template_id) now
        ∧ (∃ ev : TriggerEvent,
            (detectStep now ok acc r).1.dispatches = acc.dispatches ++ [ev]
            ∧ ev.rule_type
                = (check_log acc.state now r.log_level r.template_id r.raw_message).1.rule_type
            ∧ ev.rule_value
                = (check_log acc.state now r.log_level r.template_id r.raw_message).1.rule_value
            ∧ ev.template_id = r.template_id)) := by
  obtain ⟨p1, p2, p3, p4, p5, p6, p7, p8⟩ :=
    check_log_preserves acc.state now r.log_level r.template_id r.raw_message
  simp only [detectStep]
  by_cases c1 : (check_log acc.state now r.log_level r.template_id r.raw_message).1.is_anomaly
      = true
  · rw [if_pos c1]
    by_cases c2 : ok r = true
    · rw [if_pos c2]
      rcases hfr : find_rule
          { (check_log acc.state now r.log_level r.template_id r.raw_message).2 with
            anomaly_count_tracker :=
              (check_log acc.state now r.log_level r.template_id
                r.raw_message).2.anomaly_count_tracker ++ [now] }
          (check_log acc.state now r.log_level r.template_id r.raw_message).1.rule_type
          (check_log acc.state now r.log_level r.template_id r.raw_message).1.rule_value
        with _ | rule2
      · simp only [hfr]
        exact Or.inl (by simp [p6])
      · simp only [hfr]
        by_cases hcd : is_on_cooldown
            { (check_log acc.state now r.log_level r.template_id r.raw_message).2 with
              anomaly_count_tracker :=
                (check_log acc.state now r.log_level r.template_id
                  r.raw_message).2.anomaly_count_tracker ++ [now] }
            rule2 r.template_id now = true
        · rw [if_pos hcd]
          exact Or.inl (by simp [p6])
        · rw [if_neg hcd]
          refine Or.inr ⟨rule2, ?_, ?_, ?_, ⟨_, rfl, rfl, rfl, rfl⟩⟩
          · rw [← hfr]
            exact (find_rule_congr acc.state _ _ _ (by simp [p1]) (by simp [p2])
              (by simp [p3])).symm
          · rw [← is_on_cooldown_congr acc.state
              { (check_log acc.state now r.log_level r.template_id r.raw_message).2 with
                anomaly_count_tracker :=
                  (check_log acc.state now r.log_level r.template_id
                    r.raw_message).2.anomaly_count_tracker ++ [now] }
              rule2 r.template_id now (by simp [p6]) (by simp [p5])]
            simpa using hcd
          · simp [update_cooldown, p6]
    · rw [if_neg c2]
      exact Or.inl (by simp [p6])
  · rw [if_neg c1]
    exact Or.inl (by simp [p6])

/-- Loop-level cooldown suppression: while a dimension's cooldown entry is
younger than the resolved rule's effective cooldown, no event for that
dimension is dispatched by the remaining iterations. -/
theorem detectLoop_cooldown (now : Int) (ok : LogRecord → Bool)
    (rt rv : String) (tid : Int) (rule : AnomalyRule) (cm : Int)
    (hrt : rule.rule_type = rt) (hrv : rule.rule_value = rv) (hcm0 : 0 < cm) :
    ∀ (l : List LogRecord) (acc : DetectPass),
    find_rule acc.state rt rv = some rule →
    effCooldown acc.state rule = cm →
    (∃ t0, cdGet acc.state.cooldown_tracker (rt, rv, tid) = some t0
        ∧ now - t0 < cm * 60) →
    (∀ e ∈ acc.dispatches,
        ¬(e.rule_type = rt ∧ e.rule_value = rv ∧ e.template_id = tid)) →
    ∀ e ∈ (detectLoop now ok acc l).dispatches,
        ¬(e.rule_type = rt ∧ e.rule_value = rv ∧ e.template_id = tid) := by
  intro l
  induction l with
  | nil =>
    intro acc _ _ _ hdisp
    simpa [detectLoop] using hdisp
  | cons r rest ih =>
    intro acc hfind hcm hinv hdisp
    obtain ⟨q1, q2, q3, q4, q5, q6, q7, q8⟩ := detectStep_fields now ok acc r
    have hfind2 : find_rule (detectStep now ok acc r).1.state rt rv = some rule := by
      rw [find_rule_congr acc.state _ rt rv q1 q2 q3]
      exact hfind
    have hcm2 : effCooldown (detectStep now ok acc r).1.state rule = cm := by
      rw [effCooldown_congr acc.state _ rule q5]
      exact hcm
    have hstep := detectStep_dispatch_spec now ok acc r
    have hkey : ∀ e ∈ (detectStep now ok acc r).1.dispatches,
        ¬(e.rule_type = rt ∧ e.rule_value = rv ∧ e.template_id = tid) := by
      rcases hstep with ⟨hc, hd⟩ | ⟨rule2, hf2, hcd2, hc2, ev, hd2, het, hev, hetid⟩
      · rw [hd]
        exact hdisp
      · rw [hd2]
        intro e he
        rcases List.mem_append.mp he with h | h
        · exact hdisp e h
        · have he2 : e = ev := by simpa using h
          subst he2
          rintro ⟨e1, e2, e3⟩
          rw [het] at e1
          rw [hev] at e2
          rw [hetid] at e3
          rw [e1, e2, hfind] at hf2
          have hr2 : rule2 = rule := (Option.some.inj hf2).symm
          subst hr2
          rw [e3] at hcd2
          obtain ⟨t0, hget, ht0⟩ := hinv
          have hon : is_on_cooldown acc.state rule2 tid now = true := by
            unfold is_on_cooldown
            rw [hrt, hrv, hget, hcm]
            exact decide_eq_true ht0
          rw [hon] at hcd2
          exact absurd hcd2 (by simp)
    have hinv2 : ∃ t1, cdGet (detectStep now ok acc r).1.state.cooldown_tracker
        (rt, rv, tid) = some t1 ∧ now - t1 < cm * 60 := by
      rcases hstep with ⟨hc, hd⟩ | ⟨rule2, hf2, hcd2, hc2, ev, hd2, het, hev, hetid⟩
      · obtain ⟨t0, hget, ht0⟩ := hinv
        exact ⟨t0, by rw [hc]; exact hget, ht0⟩
      · rw [hc2, cdGet_cdSet]
        by_cases hk : ((rt, rv, tid) : CooldownKey)
            = (rule2.rule_type, rule2.rule_value, r.template_id)
        · rw [if_pos hk]
          exact ⟨now, rfl, by omega⟩
        · rw [if_neg hk]
          obtain ⟨t0, hget, ht0⟩ := hinv
          exact ⟨t0, hget, ht0⟩
    simp only [detectLoop]
    by_cases hs : (detectStep now ok acc r).2 = true
    · rw [if_pos hs]
      exact ih (detectStep now ok acc r).1 hfind2 hcm2 hinv2 hkey
    · rw [if_neg hs]
      exact hkey

/-- The detect loop never touches the rule indices, the settings or the
watermark of the state, and only evaluates records of its input batch. -/
theorem detectLoop_fields (now : Int) (ok : LogRecord → Bool) :
    ∀ (l : List LogRecord) (acc : DetectPass),
    (detectLoop now ok acc l).state.level_rules = acc.state.level_rules
    ∧ (detectLoop now ok acc l).state.keyword_rules = acc.state.keyword_rules
    ∧ (detectLoop now ok acc l).state.frequency_rules = acc.state.frequency_rules
    ∧ (detectLoop now ok acc l).state.safe_templates = acc.state.safe_templates
    ∧ (detectLoop now ok acc l).state.settings = acc.state.settings
    ∧ (detectLoop now ok acc l).state.last_processed_timestamp
        = acc.state.last_processed_timestamp
    ∧ (∀ e ∈ (detectLoop now ok acc l).evaluated, e ∈ acc.evaluated ∨ e ∈ l) := by
  intro l
  induction l with
  | nil =>
    intro acc
    refine ⟨rfl, rfl, rfl, rfl, rfl, rfl, fun e he => Or.inl (by simpa [detectLoop] using he)⟩
  | cons r rest ih =>
    intro acc
    obtain ⟨q1, q2, q3, q4, q5, q6, q7, q8⟩ := detectStep_fields now ok acc r
    simp only [detectLoop]
    by_cases hs : (detectStep now ok acc r).2 = true
    · rw [if_pos hs]
      obtain ⟨w1, w2, w3, w4, w5, w6, wev⟩ := ih (detectStep now ok acc r).1
      refine ⟨w1.trans q1, w2.trans q2, w3.trans q3, w4.trans q4, w5.trans q5,
        w6.trans q6, ?_⟩
      intro e he
      rcases wev e he with h | h
      · rw [q7] at h
        rcases List.mem_append.mp h with h2 | h2
        · exact Or.inl h2
        · exact Or.inr (by simpa using Or.inl (by simpa using h2))
      · exact Or.inr (List.mem_cons_of_mem _ h)
    · rw [if_neg hs]
      refine ⟨q1, q2, q3, q4, q5, q6, ?_⟩
      intro e he
      rw [q7] at he
      rcases List.mem_append.mp he with h2 | h2
      · exact Or.inl h2
      · exact Or.inr (by simpa using Or.inl (by simpa using h2))

/-- When every anomaly-store insert succeeds the loop never aborts, evaluates
the whole batch in order, folds `latest_timestamp` over it, and persists one
row per anomaly counted. -/
theorem detectLoop_ok (now : Int) (ok : LogRecord → Bool)
    (hok : ∀ r, ok r = true) :
    ∀ (l : List LogRecord) (acc : DetectPass),
    (detectLoop now ok acc l).aborted = acc.aborted
    ∧ (detectLoop now ok acc l).evaluated = acc.evaluated ++ l
    ∧ (detectLoop now ok acc l).latest_timestamp = foldLatest acc.latest_timestamp l
    ∧ (detectLoop now ok acc l).persisted.length + acc.anomaly_count
        = (detectLoop now ok acc l).anomaly_count + acc.persisted.length := by
  intro l
  induction l with
  | nil =>
    intro acc
    exact ⟨rfl, by simp [detectLoop], rfl, by simp [detectLoop]; omega⟩
  | cons r rest ih =>
    intro acc
    obtain ⟨hs, hab, hcnt⟩ := detectStep_ok now ok acc r (hok r)
    obtain ⟨q1, q2, q3, q4, q5, q6, q7, q8⟩ := detectStep_fields now ok acc r
    obtain ⟨w1, w2, w3, w4⟩ := ih (detectStep now ok acc r).1
    simp only [detectLoop]
    rw [if_pos hs]
    refine ⟨w1.trans hab, ?_, ?_, ?_⟩
    · rw [w2, q7]
      simp
    · rw [w3, q8]
      rfl
    · omega

/-- An aborted loop run stopped at the first record whose insert failed: that
record is the last one evaluated and the rest of the batch is untouched. -/
theorem detectLoop_abort (now : Int) (ok : LogRecord → Bool) :
    ∀ (l : List LogRecord) (acc : DetectPass),
    acc.aborted = false →
    (detectLoop now ok acc l).aborted = true →
    ∃ pre r rest2, l = pre ++ r :: rest2
      ∧ (detectLoop now ok acc l).evaluated = acc.evaluated ++ pre ++ [r]
      ∧ ok r = false := by
  intro l
  induction l with
  | nil =>
    intro acc h0 h1
    rw [detectLoop] at h1
    rw [h0] at h1
    exact absurd h1 (by simp)
  | cons r rest ih =>
    intro acc h0 h1
    obtain ⟨q1, q2, q3, q4, q5, q6, q7, q8⟩ := detectStep_fields now ok acc r
    simp only [detectLoop] at h1 ⊢
    by_cases hs : (detectStep now ok acc r).2 = true
    · rw [if_pos hs] at h1 ⊢
      have h0b : (detectStep now ok acc r).1.aborted = false :=
        (detectStep_continue now ok acc r hs).trans h0
      obtain ⟨pre, r2, rest2, hsplit, hev, hok2⟩ :=
        ih (detectStep now ok acc r).1 h0b h1
      refine ⟨r :: pre, r2, rest2, by rw [hsplit]; rfl, ?_, hok2⟩
      rw [hev, q7]
      simp
    · rw [if_neg hs] at h1 ⊢
      obtain ⟨hokr, hab⟩ := detectStep_abort now ok acc r (by simpa using hs)
      exact ⟨[], r, rest, rfl, by rw [q7]; simp, hokr⟩

/-- One `latest_timestamp` update equals taking the maximum with the
record's timestamp. -/
theorem latestStep_eq_max (t : Int) (r : LogRecord) :
    latestStep (some t) r = some (max t r.timestamp) := by
  simp only [latestStep]
  by_cases h : t < r.timestamp
  · rw [if_pos h, max_eq_right h.le]
  · rw [if_neg h, max_eq_left (not_lt.mp h)]

/-- Folding `latestStep` from a seed computes the running maximum. -/
theorem foldLatest_some (l : List LogRecord) (t : Int) :
    foldLatest (some t) l = some (l.foldl (fun a r => max a r.timestamp) t) := by
  induction l generalizing t with
  | nil => rfl
  | cons r rest ih =>
    show foldLatest (latestStep (some t) r) rest = _
    rw [latestStep_eq_max, ih]
    rfl

/-- The running maximum dominates its seed. -/
theorem foldMax_le_init (l : List LogRecord) (t : Int) :
    t ≤ l.foldl (fun a r => max a r.timestamp) t := by
  induction l generalizing t with
  | nil => exact le_refl t
  | cons r rest ih => exact le_trans (le_max_left _ _) (ih (max t r.timestamp))

/-- The running maximum dominates every element of the list. -/
theorem foldMax_mem_le (l : List LogRecord) (t : Int) :
    ∀ x ∈ l, x.timestamp ≤ l.foldl (fun a r => max a r.timestamp) t := by
  induction l generalizing t with
  | nil => intro x hx; exact absurd hx (by simp)
  | cons r rest ih =>
    intro x hx
    rcases List.mem_cons.mp hx with h | h
    · subst h
      exact le_trans (le_max_right t x.timestamp) (foldMax_le_init rest _)
    · exact ih (max t r.timestamp) x h

/-- The running maximum is the seed or some element's timestamp. -/
theorem foldMax_attained (l : List LogRecord) (t : Int) :
    l.foldl (fun a r => max a r.timestamp) t = t
    ∨ ∃ x ∈ l, l.foldl (fun a r => max a r.timestamp) t = x.timestamp := by
  induction l generalizing t with
  | nil => exact Or.inl rfl
  | cons r rest ih =>
    rcases ih (max t r.timestamp) with h | ⟨x, hx, hfx⟩
    · by_cases hm : t < r.timestamp
      · refine Or.inr ⟨r, List.mem_cons_self _ _, ?_⟩
        rw [List.foldl_cons, h, max_eq_right hm.le]
      · refine Or.inl ?_
        rw [List.foldl_cons, h, max_eq_left (not_lt.mp hm)]
    · exact Or.inr ⟨x, List.mem_cons_of_mem _ hx, by rw [List.foldl_cons]; exact hfx⟩

/-- Cleanup only touches the three trackers: rule indices, settings and the
watermark are untouched. -/
theorem cleanup_preserves (s : DetectorState) (now : Int) :
    (cleanup_expired_data s now).level_rules = s.level_rules
    ∧ (cleanup_expired_data s now).keyword_rules = s.keyword_rules
    ∧ (cleanup_expired_data s now).frequency_rules = s.frequency_rules
    ∧ (cleanup_expired_data s now).safe_templates = s.safe_templates
    ∧ (cleanup_expired_data s now).settings = s.settings
    ∧ (cleanup_expired_data s now).last_processed_timestamp
        = s.last_processed_timestamp :=
  ⟨rfl, rfl, rfl, rfl, rfl, rfl⟩

/-- Every record returned by the detection query is strictly newer than the
watermark. -/
theorem queryLogs_mem_gt (store : List LogRecord) (w now win : Int)
    (r : LogRecord) (h : r ∈ queryLogs store (some w) now win) :
    w < r.timestamp := by
  simp only [queryLogs, List.mem_filter] at h
  have h2 := h.2
  simp only [Bool.and_eq_true, decide_eq_true_eq] at h2
  exact h2.1

/-- Whatever happens inside a pass, the records it evaluates come from the
detection query. -/
theorem detect_evaluated_sub (s : DetectorState) (now : Int)
    (store : List LogRecord) (persistOk : LogRecord → Bool) :
    ∀ r ∈ (detect s now store persistOk).evaluated,
      r ∈ queryLogs store (cleanup_expired_data s now).last_processed_timestamp now
        (cleanup_expired_data s now).settings.detection_window_minutes := by
  intro r hr
  simp only [detect] at hr
  by_cases hrl : check_rate_limit (cleanup_expired_data s now) = true
  · rw [if_pos hrl] at hr
    exact absurd hr (by simp [emptyPass])
  · rw [if_neg hrl] at hr
    by_cases hemp : (queryLogs store (cleanup_expired_data s now).last_processed_timestamp
        now (cleanup_expired_data s now).settings.detection_window_minutes).isEmpty = true
    · rw [if_pos hemp] at hr
      exact absurd hr (by simp [emptyPass])
    · rw [if_neg hemp] at hr
      have hsub := (detectLoop_fields now persistOk
        (queryLogs store (cleanup_expired_data s now).last_processed_timestamp now
          (cleanup_expired_data s now).settings.detection_window_minutes)
        (emptyPass (cleanup_expired_data s now))).2.2.2.2.2.2
      by_cases habt : (detectLoop now persistOk (emptyPass (cleanup_expired_data s now))
          (queryLogs store (cleanup_expired_data s now).last_processed_timestamp now
            (cleanup_expired_data s now).settings.detection_window_minutes)).aborted = true
      · rw [if_pos habt] at hr
        rcases hsub r hr with h | h
        · exact absurd h (by simp [emptyPass])
        · exact h
      · rw [if_neg habt] at hr
        rcases hlt : (detectLoop now persistOk (emptyPass (cleanup_expired_data s now))
            (queryLogs store (cleanup_expired_data s now).last_processed_timestamp now
              (cleanup_expired_data s now).settings.detection_window_minutes)).latest_timestamp
          with _ | t
        · simp only [hlt] at hr
          rcases hsub r hr with h | h
          · exact absurd h (by simp [emptyPass])
          · exact h
        · simp only [hlt] at hr
          rcases hsub r hr with h | h
          · exact absurd h (by simp [emptyPass])
          · exact h

/-- C6 counterexample: with two new records (times 100 and 150, the first
anomalous) and the anomaly-store insert failing on the first, the pass stops
at the failing record — the second record is never evaluated — and the
watermark is not advanced. -/
theorem detect_persist_failure_counterexample :
    failPersist
      { timestamp := 100
        log_level := "ERROR"
        service := "svc"
        template_id := 5
        raw_message := "disk full" } = false
    ∧ store1.length = 2
    ∧ (detect exState 200 store1 failPersist).evaluated
        = [{ timestamp := 100
             log_level := "ERROR"
             service := "svc"
             template_id := 5
             raw_message := "disk full" }]
    ∧ (detect exState 200 store1 failPersist).state.last_processed_timestamp = none
    ∧ (detect exState 200 store1 failPersist).aborted = true :=
  ⟨rfl, rfl, rfl, rfl, rfl⟩

/-- C6 (amended): a failed anomaly-store write aborts the whole `detect`
pass instead of continuing: the failing record is the last one evaluated,
the rest of the batch is not evaluated, and the watermark is left
unchanged. -/
theorem detect_persist_failure_aborts (s : DetectorState) (now : Int)
    (store : List LogRecord) (persistOk : LogRecord → Bool)
    (hab : (detect s now store persistOk).aborted = true) :
    (detect s now store persistOk).state.last_processed_timestamp
        = s.last_processed_timestamp
    ∧ ∃ pre r rest2,
        queryLogs store (cleanup_expired_data s now).last_processed_timestamp now
          (cleanup_expired_data s now).settings.detection_window_minutes
          = pre ++ r :: rest2
        ∧ (detect s now store persistOk).evaluated = pre ++ [r]
        ∧ persistOk r = false := by
  simp only [detect] at hab ⊢
  by_cases hrl : check_rate_limit (cleanup_expired_data s now) = true
  · rw [if_pos hrl] at hab
    exact absurd hab (by simp [emptyPass])
  · rw [if_neg hrl] at hab ⊢
    by_cases hemp : (queryLogs store (cleanup_expired_data s now).last_processed_timestamp
        now (cleanup_expired_data s now).settings.detection_window_minutes).isEmpty = true
    · rw [if_pos hemp] at hab
      exact absurd hab (by simp [emptyPass])
    · rw [if_neg hemp] at hab ⊢
      by_cases habt : (detectLoop now persistOk (emptyPass (cleanup_expired_data s now))
          (queryLogs store (cleanup_expired_data s now).last_processed_timestamp now
            (cleanup_expired_data s now).settings.detection_window_minutes)).aborted = true
      · rw [if_pos habt]
        obtain ⟨pre, r, rest2, hsplit, hev, hok2⟩ :=
          detectLoop_abort now persistOk
            (queryLogs store (cleanup_expired_data s now).last_processed_timestamp now
              (cleanup_expired_data s now).settings.detection_window_minutes)
            (emptyPass (cleanup_expired_data s now)) rfl habt
        constructor
        · have hw := (detectLoop_fields now persistOk
            (queryLogs store (cleanup_expired_data s now).last_processed_timestamp now
              (cleanup_expired_data s now).settings.detection_window_minutes)
            (emptyPass (cleanup_expired_data s now))).2.2.2.2.2.1
          exact hw.trans (cleanup_preserves s now).2.2.2.2.2
        · exact ⟨pre, r, rest2, hsplit, by rw [hev]; simp [emptyPass], hok2⟩
      · rw [if_neg habt] at hab
        rcases hlt : (detectLoop now persistOk (emptyPass (cleanup_expired_data s now))
            (queryLogs store (cleanup_expired_data s now).last_processed_timestamp now
              (cleanup_expired_data s now).settings.detection_window_minutes)).latest_timestamp
          with _ | t
        · simp only [hlt] at hab
          exact absurd hab habt
        · simp only [hlt] at hab
          exact absurd hab habt

/-- Witness for C6 at the concrete failing store: the pass is aborted, the
watermark stays `none`, and the failing record closes the evaluated list. -/
theorem detect_persist_failure_aborts_witness :
    (detect exState 200 store1 failPersist).aborted = true
    ∧ (detect exState 200 store1 failPersist).state.last_processed_timestamp
        = exState.last_processed_timestamp
    ∧ ∃ pre r rest2,
        queryLogs store1 (cleanup_expired_data exState 200).last_processed_timestamp 200
          (cleanup_expired_data exState 200).settings.detection_window_minutes
          = pre ++ r :: rest2
        ∧ (detect exState 200 store1 failPersist).evaluated = pre ++ [r]
        ∧ failPersist r = false := by
  refine ⟨rfl, ?_, ?_⟩
  · exact (detect_persist_failure_aborts exState 200 store1 failPersist rfl).1
  · exact (detect_persist_failure_aborts exState 200 store1 failPersist rfl).2

/-- C3: a pass that evaluates at least one record (rate limit off, non-empty
query, all inserts succeeding) advances the in-memory watermark to the
maximum timestamp among all evaluated records — anomalous or not — and a
subsequent `detect` over the same store evaluates none of them again. -/
theorem detect_watermark_monotone (s : DetectorState) (now : Int)
    (store : List LogRecord) (persistOk : LogRecord → Bool)
    (hrl : check_rate_limit (cleanup_expired_data s now) = false)
    (hne : queryLogs store (cleanup_expired_data s now).last_processed_timestamp now
        (cleanup_expired_data s now).settings.detection_window_minutes ≠ [])
    (hok : ∀ r, persistOk r = true) :
    ∃ M : Int,
      (detect s now store persistOk).state.last_processed_timestamp = some M
      ∧ (detect s now store persistOk).evaluated
          = queryLogs store (cleanup_expired_data s now).last_processed_timestamp now
              (cleanup_expired_data s now).settings.detection_window_minutes
      ∧ (∀ r ∈ (detect s now store persistOk).evaluated, r.timestamp ≤ M)
      ∧ M ∈ (detect s now store persistOk).evaluated.map (fun r => r.timestamp)
      ∧ ∀ (now2 : Int) (persistOk2 : LogRecord → Bool),
          ∀ r ∈ (detect s now store persistOk).evaluated,
            r ∉ (detect (detect s now store persistOk).state now2 store
                persistOk2).evaluated := by
  rcases hL : queryLogs store (cleanup_expired_data s now).last_processed_timestamp now
      (cleanup_expired_data s now).settings.detection_window_minutes with _ | ⟨r0, rest⟩
  · exact absurd hL hne
  obtain ⟨hab, hev, hlat, hcnt⟩ := detectLoop_ok now persistOk hok (r0 :: rest)
    (emptyPass (cleanup_expired_data s now))
  have hab0 : (detectLoop now persistOk (emptyPass (cleanup_expired_data s now))
      (r0 :: rest)).aborted = false := hab
  have hlat2 : (detectLoop now persistOk (emptyPass (cleanup_expired_data s now))
      (r0 :: rest)).latest_timestamp
      = some (rest.foldl (fun a r => max a r.timestamp) r0.timestamp) := by
    rw [hlat]
    show foldLatest (some r0.timestamp) rest = _
    exact foldLatest_some rest r0.timestamp
  have hdet : detect s now store persistOk
      = { (detectLoop now persistOk (emptyPass (cleanup_expired_data s now))
            (r0 :: rest)) with
          state := { (detectLoop now persistOk (emptyPass (cleanup_expired_data s now))
              (r0 :: rest)).state with
            last_processed_timestamp
              := some (rest.foldl (fun a r => max a r.timestamp) r0.timestamp) } } := by
    simp only [detect, hrl, Bool.false_eq_true, if_false, hL, List.isEmpty_cons,
      hab0, hlat2]
  have hev2 : (detectLoop now persistOk (emptyPass (cleanup_expired_data s now))
      (r0 :: rest)).evaluated = r0 :: rest := by
    rw [hev]
    simp [emptyPass]
  have hdete : (detect s now store persistOk).evaluated = r0 :: rest := by
    rw [hdet]
    show (detectLoop now persistOk (emptyPass (cleanup_expired_data s now))
      (r0 :: rest)).evaluated = r0 :: rest
    exact hev2
  have hle : ∀ r ∈ (detect s now store persistOk).evaluated,
      r.timestamp ≤ rest.foldl (fun a r => max a r.timestamp) r0.timestamp := by
    intro r hr
    rw [hdete] at hr
    rcases List.mem_cons.mp hr with h | h
    · subst h
      exact foldMax_le_init rest r.timestamp
    · exact foldMax_mem_le rest r0.timestamp r h
  have hwm : (detect s now store persistOk).state.last_processed_timestamp
      = some (rest.foldl (fun a r => max a r.timestamp) r0.timestamp) := by
    rw [hdet]
  refine ⟨rest.foldl (fun a r => max a r.timestamp) r0.timestamp, hwm, ?_, hle, ?_, ?_⟩
  · rw [hdete]
  · rw [hdete]
    rcases foldMax_attained rest r0.timestamp with h | ⟨x, hx, hfx⟩
    · rw [h]
      simp
    · rw [hfx]
      simp only [List.map_cons, List.mem_cons, List.mem_map]
      exact Or.inr ⟨x, hx, rfl⟩
  · intro now2 ok2 r hr hr2
    have hsub := detect_evaluated_sub (detect s now store persistOk).state now2 store
      ok2 r hr2
    have hq2 : (cleanup_expired_data (detect s now store persistOk).state
        now2).last_processed_timestamp
        = some (rest.foldl (fun a r => max a r.timestamp) r0.timestamp) := by
      rw [(cleanup_preserves _ now2).2.2.2.2.2, hwm]
    rw [hq2] at hsub
    have hgt := queryLogs_mem_gt store _ now2 _ r hsub
    have hle2 := hle r hr
    omega

/-- Witness for C3: two fresh records at times 100 and 150 set the watermark
to 150 and are never evaluated by a second pass over the same store. -/
theorem detect_watermark_monotone_witness :
    check_rate_limit (cleanup_expired_data exState 200) = false
    ∧ ∃ M : Int,
        (detect exState 200 store1 (fun _ => true)).state.last_processed_timestamp
          = some M
        ∧ (∀ r ∈ (detect exState 200 store1 (fun _ => true)).evaluated,
            r.timestamp ≤ M)
        ∧ M ∈ (detect exState 200 store1 (fun _ => true)).evaluated.map
            (fun r => r.timestamp)
        ∧ ∀ (now2 : Int) (persistOk2 : LogRecord → Bool),
            ∀ r ∈ (detect exState 200 store1 (fun _ => true)).evaluated,
              r ∉ (detect (detect exState 200 store1 (fun _ => true)).state now2
                  store1 persistOk2).evaluated :=
  ⟨rfl, by
    obtain ⟨M, h1, h2, h3, h4, h5⟩ := detect_watermark_monotone exState 200 store1
      (fun _ => true) rfl (by decide) (fun r => rfl)
    exact ⟨M, h1, h3, h4, h5⟩⟩

/-- C4 counterexample: the claim fails for a level rule whose cooldown
exceeds twice the cleanup bound.  The dimension was marked 70 minutes ago
and the rule's cooldown is 100 minutes, yet a new dispatch fires because
cleanup (whose bound ignores level-rule cooldowns) evicted the entry. -/
theorem detect_cooldown_counterexample :
    cdGet cdState.cooldown_tracker ("level", "ERROR", 5) = some 2800
    ∧ (lookupRule cdState.level_rules "ERROR").map (fun r => r.cooldown_minutes)
        = some 100
    ∧ ((7000 : Int) - 2800) < 100 * 60
    ∧ ((detect cdState 7000 cdStore (fun _ => true)).dispatches.map
        (fun e => (e.rule_type, e.rule_value, e.template_id)))
        = [("level", "ERROR", 5)] :=
  ⟨rfl, rfl, by decide, rfl⟩

/-- C4 (amended): provided the dimension's cooldown entry is recent enough to
survive cleanup (younger than twice the maximum keyword/frequency/default
cooldown), no agent-trigger dispatch occurs for that dimension while the
resolved rule's cooldown has not elapsed — and with the anomaly store up,
every anomaly counted in the pass is still persisted. -/
theorem detect_cooldown_suppression (s : DetectorState) (now : Int)
    (store : List LogRecord) (persistOk : LogRecord → Bool)
    (rt rv : String) (tid : Int) (rule : AnomalyRule) (t0 : Int)
    (hrt : rule.rule_type = rt) (hrv : rule.rule_value = rv)
    (hfind : find_rule s rt rv = some rule)
    (hcm0 : 0 < effCooldown s rule)
    (hget : cdGet s.cooldown_tracker (rt, rv, tid) = some t0)
    (hkeep : now - maxCooldownOf s * 2 * 60 ≤ t0)
    (hcd : now - t0 < effCooldown s rule * 60)
    (hok : ∀ r, persistOk r = true) :
    (∀ e ∈ (detect s now store persistOk).dispatches,
        ¬(e.rule_type = rt ∧ e.rule_value = rv ∧ e.template_id = tid))
    ∧ (detect s now store persistOk).persisted.length
        = (detect s now store persistOk).anomaly_count := by
  have hget1 : cdGet (cleanup_expired_data s now).cooldown_tracker (rt, rv, tid)
      = some t0 := by
    show cdGet (s.cooldown_tracker.filter
      (fun p => decide (now - maxCooldownOf s * 2 * 60 ≤ p.2))) (rt, rv, tid) = some t0
    exact cdGet_filter_keep _ _ _ _ hget hkeep
  have hfind1 : find_rule (cleanup_expired_data s now) rt rv = some rule := by
    rw [find_rule_congr s (cleanup_expired_data s now) rt rv rfl rfl rfl]
    exact hfind
  have hcm1 : effCooldown (cleanup_expired_data s now) rule = effCooldown s rule :=
    effCooldown_congr s _ rule rfl
  simp only [detect]
  by_cases hrl : check_rate_limit (cleanup_expired_data s now) = true
  · rw [if_pos hrl]
    exact ⟨fun e he => absurd he (by simp [emptyPass]), rfl⟩
  · rw [if_neg hrl]
    by_cases hemp : (queryLogs store (cleanup_expired_data s now).last_processed_timestamp
        now (cleanup_expired_data s now).settings.detection_window_minutes).isEmpty = true
    · rw [if_pos hemp]
      exact ⟨fun e he => absurd he (by simp [emptyPass]), rfl⟩
    · rw [if_neg hemp]
      obtain ⟨lab, lev, llat, lcnt⟩ := detectLoop_ok now persistOk hok
        (queryLogs store (cleanup_expired_data s now).last_processed_timestamp now
          (cleanup_expired_data s now).settings.detection_window_minutes)
        (emptyPass (cleanup_expired_data s now))
      have ldisp := detectLoop_cooldown now persistOk rt rv tid rule
        (effCooldown s rule) hrt hrv hcm0
        (queryLogs store (cleanup_expired_data s now).last_processed_timestamp now
          (cleanup_expired_data s now).settings.detection_window_minutes)
        (emptyPass (cleanup_expired_data s now)) hfind1 hcm1 ⟨t0, hget1, hcd⟩
        (fun e he => absurd he (by simp [emptyPass]))
      have hab0 : (detectLoop now persistOk (emptyPass (cleanup_expired_data s now))
          (queryLogs store (cleanup_expired_data s now).last_processed_timestamp now
            (cleanup_expired_data s now).settings.detection_window_minutes)).aborted
          = false := lab
      rw [if_neg (by rw [hab0]; simp)]
      have hcnt2 : (detectLoop now persistOk (emptyPass (cleanup_expired_data s now))
          (queryLogs store (cleanup_expired_data s now).last_processed_timestamp now
            (cleanup_expired_data s now).settings.detection_window_minutes)).persisted.length
          = (detectLoop now persistOk (emptyPass (cleanup_expired_data s now))
            (queryLogs store (cleanup_expired_data s now).last_processed_timestamp now
              (cleanup_expired_data s now).settings.detection_window_minutes)).anomaly_count := by
        have h2 := lcnt
        have e0 : (emptyPass (cleanup_expired_data s now)).anomaly_count = 0 := rfl
        have p0 : (emptyPass (cleanup_expired_data s now)).persisted.length = 0 := rfl
        rw [e0, p0] at h2
        omega
      rcases hlt : (detectLoop now persistOk (emptyPass (cleanup_expired_data s now))
          (queryLogs store (cleanup_expired_data s now).last_processed_timestamp now
            (cleanup_expired_data s now).settings.detection_window_minutes)).latest_timestamp
        with _ | t
      · simp only [hlt]
        exact ⟨ldisp, hcnt2⟩
      · simp only [hlt]
        exact ⟨fun e he => ldisp e he, hcnt2⟩

/-- Witness for C4 (amended): the entry marked 1000 seconds before the pass
survives cleanup, suppresses the dispatch for `(level, ERROR, 5)`, and the
anomaly is still persisted (one row for one anomaly). -/
theorem detect_cooldown_suppression_witness :
    cdGet cdStateKeep.cooldown_tracker ("level", "ERROR", 5) = some 6000
    ∧ (∀ e ∈ (detect cdStateKeep 7000 cdStore (fun _ => true)).dispatches,
        ¬(e.rule_type = "level" ∧ e.rule_value = "ERROR" ∧ e.template_id = 5))
    ∧ (detect cdStateKeep 7000 cdStore (fun _ => true)).persisted.length
        = (detect cdStateKeep 7000 cdStore (fun _ => true)).anomaly_count :=
  ⟨rfl,
   (detect_cooldown_suppression cdStateKeep 7000 cdStore (fun _ => true) "level"
      "ERROR" 5 cdRule 6000 rfl rfl rfl (by decide) rfl (by decide) (by decide)
      (fun r => rfl)).1,
   (detect_cooldown_suppression cdStateKeep 7000 cdStore (fun _ => true) "level"
      "ERROR" 5 cdRule 6000 rfl rfl rfl (by decide) rfl (by decide) (by decide)
      (fun r => rfl)).2⟩

/-- C8 counterexample: the cleanup bound omits level-rule cooldowns.  With
an `ERROR` level rule at 100 minutes cooldown and no keyword or frequency
rules, an entry aged 70 minutes — well inside the claim's 200-minute bound —
is evicted because the code's bound is only twice the 30-minute default. -/
theorem cleanup_cooldown_counterexample :
    (lookupRule cdState.level_rules "ERROR").map (fun r => r.cooldown_minutes)
      = some 100
    ∧ cdState.keyword_rules = [] ∧ cdState.frequency_rules = []
    ∧ cdGet cdState.cooldown_tracker ("level", "ERROR", 5) = some 2800
    ∧ ((7000 : Int) - 2800) < 2 * 100 * 60
    ∧ maxCooldownOf cdState = 30
    ∧ cdGet (cleanup_expired_data cdState 7000).cooldown_tracker
        ("level", "ERROR", 5) = none :=
  ⟨rfl, rfl, rfl, rfl, by decide, by decide, rfl⟩

/-- C8 (amended): with unique tracker keys, cleanup evicts a cooldown entry
exactly when it is older than twice the maximum cooldown over the keyword
and frequency rules and the global default — level-rule cooldowns do not
feed the bound; younger entries survive unchanged. -/
theorem cleanup_cooldown_eviction (s : DetectorState) (now : Int)
    (k : CooldownKey) (t0 : Int)
    (hnd : (s.cooldown_tracker.map (fun p => p.1)).Nodup)
    (hget : cdGet s.cooldown_tracker k = some t0) :
    cdGet (cleanup_expired_data s now).cooldown_tracker k
      = if t0 < now - maxCooldownOf s * 2 * 60 then none else some t0 := by
  have h := cdGet_filter_of_nodup s.cooldown_tracker k t0
    (now - maxCooldownOf s * 2 * 60) hnd hget
  have hshape : cdGet (cleanup_expired_data s now).cooldown_tracker k
      = cdGet (s.cooldown_tracker.filter
          (fun p => decide (now - maxCooldownOf s * 2 * 60 ≤ p.2))) k := rfl
  rw [hshape, h]
  by_cases hc : now - maxCooldownOf s * 2 * 60 ≤ t0
  · rw [if_pos hc, if_neg (not_lt.mpr hc)]
  · rw [if_neg hc, if_pos (lt_of_not_ge hc)]

/-- Witness for C8 (amended): the entry aged 1000 seconds is younger than
the bound and survives cleanup unchanged. -/
theorem cleanup_cooldown_eviction_witness :
    (cdStateKeep.cooldown_tracker.map (fun p => p.1)).Nodup
    ∧ cdGet cdStateKeep.cooldown_tracker ("level", "ERROR", 5) = some 6000
    ∧ cdGet (cleanup_expired_data cdStateKeep 7000).cooldown_tracker
        ("level", "ERROR", 5)
      = if (6000 : Int) < 7000 - maxCooldownOf cdStateKeep * 2 * 60 then none
        else some 6000 :=
  ⟨by decide, rfl,
    cleanup_cooldown_eviction cdStateKeep 7000 ("level", "ERROR", 5) 6000
      (by decide) rfl⟩
